import Mathlib

/-!
# Verification of the CKD-Review derivation pipeline

Shallow embedding of the derivation pipeline of the CKD-Review repository
(`Code/CKD_core.py`, `CKD_auto.py`, `CKD_auto_nopdf.py`,
`Code/CKD_pdf_files_new3.py`) together with proofs about it.

Conventions of the embedding:
* pandas/NumPy missing values (`NaN`, `NaT`, `None`) are `Option.none`;
* machine floats are modelled as `ℚ` where the code only compares and
  adds, and as `ℝ` where the code takes transcendental powers;
* dates are integers (days since an arbitrary epoch), `timedelta(days=n)`
  is the integer `n`;
* a pandas comparison `x >= t` on a possibly-missing `x` is `False` when
  `x` is missing, which `pyGe`/`pyGt` reproduce;
* fallible conversions (`pd.to_numeric(errors="coerce")`) return `Option`.
-/

set_option maxHeartbeats 1000000

namespace CKDReview

/-- pandas semantics of `x >= t` where `x` may be `NaN`: a comparison with
a missing value is `False`. -/
def pyGe (x : Option ℚ) (t : ℚ) : Bool :=
  match x with
  | none => false
  | some v => decide (t ≤ v)

/-- pandas semantics of `x > t` where `x` may be `NaN`. -/
def pyGt (x : Option ℚ) (t : ℚ) : Bool :=
  match x with
  | none => false
  | some v => decide (t < v)

/-- pandas semantics of `x < t` where `x` may be `NaN`. -/
def pyLt (x : Option ℚ) (t : ℚ) : Bool :=
  match x with
  | none => false
  | some v => decide (v < t)

/-- ASCII whitespace, as Python's `strip` removes it. -/
def isSpaceChar (c : Char) : Bool :=
  c == ' ' || c == '\t' || c == '\n' || c == '\r'

/-- `strip`: drop whitespace from both ends of a character list. -/
def trimChars (l : List Char) : List Char :=
  ((l.dropWhile isSpaceChar).reverse.dropWhile isSpaceChar).reverse

/-- `lower`: ASCII-lowercase a character list. -/
def lowerChars (l : List Char) : List Char :=
  l.map Char.toLower

/-- The value of a non-empty all-digit character list, `none` otherwise. -/
def digitsVal (l : List Char) : Option ℕ :=
  match l with
  | [] => none
  | _ =>
    l.foldl
      (fun acc c =>
        match acc with
        | none => none
        | some n => if c.isDigit then some (10 * n + (c.toNat - 48)) else none)
      (some 0)

/-- `pd.to_numeric(s, errors="coerce")` on a string cell: parse an
optional sign, an integer part and an optional fractional part;
any other string (for example `"A3"`, `"na"`, `"abc"`, whitespace)
coerces to `NaN`. -/
def pdToNumericChars (l : List Char) : Option ℚ :=
  match trimChars l with
  | [] => none
  | t =>
    let nu : Bool × List Char :=
      match t with
      | '-' :: rest => (true, rest)
      | _ => (false, t)
    let v? : Option ℚ :=
      if nu.2.count '.' = 0 then
        (digitsVal nu.2).map (fun n => (n : ℚ))
      else if nu.2.count '.' = 1 then
        match digitsVal (nu.2.takeWhile (fun c => c ≠ '.')),
            digitsVal ((nu.2.dropWhile (fun c => c ≠ '.')).tail) with
        | some a, some b =>
          some ((a : ℚ)
            + (b : ℚ) / (10 : ℚ) ^ ((nu.2.dropWhile (fun c => c ≠ '.')).tail).length)
        | _, _ => none
      else none
    v?.map (fun v => if nu.1 then -v else v)

/-- `pd.to_numeric(s, errors="coerce")` on a string. -/
def pdToNumeric (s : String) : Option ℚ :=
  pdToNumericChars s.data

/-! ## CKD stage classification (`Code/CKD_core.py`, `classify_CKD_stage`) -/

/-- `classify_CKD_stage` from `Code/CKD_core.py` (lines 186-202).
`none` input is the `pd.isna` branch returning Python `None`. -/
def classify_CKD_stage (eGFR : Option ℚ) : Option String :=
  match eGFR with
  | none => none
  | some e =>
    if e ≥ 90 then some "Stage 1"
    else if e ≥ 60 then some "Stage 2"
    else if e ≥ 45 then some "Stage 3A"
    else if e ≥ 30 then some "Stage 3B"
    else if e ≥ 15 then some "Stage 4"
    else if 0 < e ∧ e < 15 then some "Stage 5"
    else some "No Data"

/-! ## eGFR computation (`Code/CKD_core.py`, `calculate_eGFR`) -/

/-- Result of a Python float computation in the pipeline: the `np.nan`
missing sentinel, a non-real outcome (a raised `ZeroDivisionError`, or the
complex number Python returns when a negative base meets a fractional
exponent), or a genuine finite float value. -/
inductive PyValue
  | nan : PyValue
  | err : PyValue
  | val : ℝ → PyValue

/-- `calculate_eGFR` from `Code/CKD_core.py` (lines 165-185): Bedside
Schwartz below age 18 (requiring Height), CKD-EPI 2009 otherwise.
Creatinine is converted from µmol/L by dividing by 88.42.  A zero
creatinine makes Python raise `ZeroDivisionError` (division by zero in the
Schwartz branch, `0.0` to a negative power in the adult branch); a
negative creatinine makes the adult branch produce a complex number; both
are `PyValue.err`. -/
noncomputable def calculate_eGFR (Age : Option ℚ) (Gender : Option String)
    (Creatinine : Option ℚ) (Height : Option ℚ) : PyValue :=
  match Age, Gender, Creatinine with
  | some a, some g, some c =>
    let mg : ℚ := c / (8842/100)
    if a < 18 then
      match Height with
      | none => PyValue.nan
      | some h =>
        if mg = 0 then PyValue.err
        else PyValue.val ((413/1000 : ℝ) * (h : ℝ) / (mg : ℝ))
    else
      let K : ℚ := if g = "Female" then 7/10 else 9/10
      let s : ℚ := mg / K
      if s < 0 then PyValue.err
      else if s = 0 then PyValue.err
      else PyValue.val (142
        * Real.rpow (min ((s : ℚ) : ℝ) 1)
            (if g = "Female" then -241/1000 else -302/1000)
        * Real.rpow (max ((s : ℚ) : ℝ) 1) (-(6/5))
        * Real.rpow (9938/10000) (a : ℝ)
        * (if g = "Female" then 1012/1000 else 1))
  | _, _, _ => PyValue.nan

/-! ## Temporal matching (`Code/CKD_core.py`, `select_closest_3m_prior_creatinine`) -/

/-- One row of the merged extract as seen by the temporal matcher: the
patient identifier and the secondary (historical) creatinine slot.
Dates are days since an epoch. -/
structure LabRow where
  hc : ℕ
  date2 : Option ℤ
  value2 : Option ℚ

/-- `hc_data[['Date.2', 'Value.2']].dropna().values.tolist()`: the valid
(date, value) candidate pairs of one patient, in row order. -/
def validPairs (hc : ℕ) (df : List LabRow) : List (ℤ × ℚ) :=
  (df.filter (fun e => e.hc == hc)).filterMap
    (fun e =>
      match e.date2, e.value2 with
      | some d, some v => some (d, v)
      | _, _ => none)

/-- One iteration of the source's for-loop: keep the incumbent closest
candidate unless the new candidate is strictly closer to the target
(`diff < min_diff`), so ties keep the first-encountered candidate. -/
def closerStep (t : ℤ) (acc : Option (ℚ × ℤ)) (p : ℤ × ℚ) : Option (ℚ × ℤ) :=
  match acc with
  | none => some (p.2, p.1)
  | some vd => if |p.1 - t| < |vd.2 - t| then some (p.2, p.1) else acc

/-- The source's scan over all candidates, starting from no incumbent
(`min_diff = timedelta.max`). -/
def pickClosest (t : ℤ) (pairs : List (ℤ × ℚ)) : Option (ℚ × ℤ) :=
  pairs.foldl (closerStep t) none

/-- Recursive characterisation of the scan: the first candidate attaining
the minimum absolute difference. -/
def firstMin (t : ℤ) : List (ℤ × ℚ) → Option (ℚ × ℤ)
  | [] => none
  | p :: rest =>
    match firstMin t rest with
    | none => some (p.2, p.1)
    | some vd => if |vd.2 - t| < |p.1 - t| then some vd else some (p.2, p.1)

/-- Left-biased merge of two incumbent candidates. -/
def mergeMin (t : ℤ) (a b : Option (ℚ × ℤ)) : Option (ℚ × ℤ) :=
  match a, b with
  | none, b => b
  | some a, none => some a
  | some a, some b => if |b.2 - t| < |a.2 - t| then some b else some a

/-- `select_closest_3m_prior_creatinine` from `Code/CKD_core.py`
(lines 131-157): `none` models the NaN/NaT pair the source returns when
the row's date is missing or no valid candidate exists; otherwise the
(value, date) of the candidate closest to `rowDate - 90` days. -/
def select_closest_3m_prior_creatinine (rowDate : Option ℤ) (rowHC : ℕ)
    (df : List LabRow) : Option (ℚ × ℤ) :=
  match rowDate with
  | none => none
  | some d => pickClosest (d - 90) (validPairs rowHC df)

/-! ## Backfill (`Code/CKD_core.py`, `update_df_with_newest_value2`) -/

/-- A raw CSV cell before numeric coercion. -/
inductive RawCell
  | num (q : ℚ)
  | text (s : String)
  | null

/-- The column coercion the source applies to `Value` before any lookup:
`df['Value'].replace("", np.nan)` then
`pd.to_numeric(df['Value'], errors="coerce")`. -/
def coerceValue : RawCell → Option ℚ
  | .num q => some q
  | .null => none
  | .text s => if s = "" then none else pdToNumeric s

/-- One row as seen by the backfill step; `rest` stands for every column
the step does not touch.  The date columns carry the result of the
source's `pd.to_datetime(..., errors="coerce")`, so `none` is `NaT`. -/
structure VRow (α : Type) where
  hc : ℕ
  date : Option ℤ
  value : RawCell
  date2 : Option ℤ
  value2 : Option ℚ
  rest : α

/-- A `Date` cell after the backfill step: still a timestamp, still `NaT`,
or the `dd/mm/YYYY` string rendering (`strftime`) of the day copied from
the newest `Date.2`. -/
inductive DateOut
  | ts (d : ℤ)
  | nat
  | rendered (d : ℤ)

/-- One row after the backfill step (`Value` has been numerically
coerced by then). -/
structure VRowOut (α : Type) where
  hc : ℕ
  date : DateOut
  value : Option ℚ
  date2 : Option ℤ
  value2 : Option ℚ
  rest : α

/-- The row of a patient's group with the newest valid `Date.2`
(`idxmax` keeps the first row attaining the maximum), if any. -/
def newestSecondary {α : Type} (df : List (VRow α)) (hc : ℕ) : Option (VRow α) :=
  (df.filter (fun r => r.hc == hc && r.date2.isSome)).foldl
    (fun acc r =>
      match acc with
      | none => some r
      | some b => if b.date2.getD 0 < r.date2.getD 0 then some r else acc)
    none

/-- The source's `update_row`: copy the newest group row's `Value.2` into
`Value` when the (coerced) primary value is missing, and the rendered
newest `Date.2` into `Date` when the primary date is missing; leave every
other field alone. -/
def update_row {α : Type} (nr? : Option (VRow α)) (row : VRow α) : VRowOut α :=
  match nr? with
  | none =>
    ⟨row.hc,
      (match row.date with | some d => DateOut.ts d | none => DateOut.nat),
      coerceValue row.value, row.date2, row.value2, row.rest⟩
  | some nr =>
    ⟨row.hc,
      (match row.date with
        | some d => DateOut.ts d
        | none =>
          match nr.date2 with
          | some m => DateOut.rendered m
          | none => DateOut.nat),
      (if (coerceValue row.value).isNone then nr.value2 else coerceValue row.value),
      row.date2, row.value2, row.rest⟩

/-- `update_df_with_newest_value2` from `Code/CKD_core.py` (lines 77-130),
after the two column coercions. -/
def update_df_with_newest_value2 {α : Type} (df : List (VRow α)) : List (VRowOut α) :=
  df.map (fun r => update_row (newestSecondary df r.hc) r)

/-- The claim's missing senses for a raw primary cell: null, blank or
whitespace-only, or one of "na", "n/a", "null", "none" case-insensitively. -/
def listedMissing : RawCell → Bool
  | .null => true
  | .num _ => false
  | .text s =>
    let t := lowerChars (trimChars s.data)
    t == [] || t == "na".data || t == "n/a".data
      || t == "null".data || t == "none".data

/-! ## KFRE scoring split (`Code/CKD_core.py`, lines 657-766) -/

/-- The fields of a merged record that drive the scoring split: `Age`,
`Gender`, the computed rounded `eGFR` (`Int64`), and the raw `ACR`. -/
structure KRec where
  age : Option ℚ
  gender : Option String
  egfr : Option ℤ
  acr : Option ℚ
deriving DecidableEq

/-- `CKD_review['ACR'] = CKD_review['ACR'].fillna(0)` (line 658),
run before the missing-required-columns check. -/
def fillACR (r : KRec) : KRec :=
  ⟨r.age, r.gender, r.egfr, some (r.acr.getD 0)⟩

/-- `CKD_review[required_columns].isnull().any(axis=1)` with
`required_columns = ['Age', 'Gender', 'eGFR', 'ACR']` (lines 685-686). -/
def requiredMissing (r : KRec) : Bool :=
  r.age.isNone || r.gender.isNone || r.egfr.isNone || r.acr.isNone

/-- `gender_mapping = {'Male': 1, 'Female': 0}` and the subsequent
`.map` (line 714): any other gender maps to `NaN`. -/
def sexOf (g : String) : Option ℚ :=
  if g = "Male" then some 1 else if g = "Female" then some 0 else none

/-- The fate of one record in the scoring step: scored (carrying the
substituted ACR and the binary sex actually fed to the KFRE equation),
excluded into the missing-data CSV with its two sentinel strings, or
silently dropped by `dropna(subset=['sex'])`. -/
inductive KFREOutcome
  | scored (acrUsed : ℚ) (sex : ℚ)
  | excludedMissing (riskMsg stageMsg : String)
  | droppedInvalidGender
deriving DecidableEq

/-- The per-record scoring step of `Code/CKD_core.py` lines 657-766:
ACR zero-fill, missing-required split with sentinel messages
(lines 754-757), gender mapping with `dropna(subset=['sex'])`
(lines 714-718), and the `ACR.replace(0, 0.019)` substitution (line 724)
feeding the KFRE linear predictor. The numeric risks of a scored record
are obtained from `acrUsed` and `sex` by the transcendental KFRE formula
and are not needed by any claim here. -/
def kfre_outcome (r : KRec) : KFREOutcome :=
  let f := fillACR r
  if requiredMissing f then
    KFREOutcome.excludedMissing "Error: Missing required values"
      "Error: Insufficient data"
  else
    match f.gender with
    | none => KFREOutcome.droppedInvalidGender
    | some g =>
      match sexOf g with
      | none => KFREOutcome.droppedInvalidGender
      | some s =>
        KFREOutcome.scored (if f.acr.getD 0 = 0 then 19/1000 else f.acr.getD 0) s

/-- The table-level split (lines 686-766): the missing-data side CSV and
the final combined table `pd.concat([CKD_review_complete, missing_data_df])`. -/
def kfre_split (input : List KRec) : List KRec × List KRec :=
  let filled := input.map fillACR
  let missing := filled.filter (fun r => requiredMissing r)
  let completeValid := (filled.filter (fun r => !requiredMissing r)).filter
    (fun r => (r.gender.bind sexOf).isSome)
  (completeValid ++ missing, missing)

/-! ## Stage overrides (`Code/CKD_core.py` lines 777-789,
`CKD_auto.py` lines 218-311) -/

/-- The override condition of `Code/CKD_core.py` lines 777-789:
`pd.notna(ACR) and pd.notna(eGFR) and pd.notna(Date) and ACR < 3 and
eGFR > 60`, evaluated on the row's *current* ACR/eGFR/date. -/
def normal_rule (acr : Option ℚ) (egfr : Option ℤ) (date : Option ℤ) : Bool :=
  match acr, egfr, date with
  | some a, some e, some _ => decide (a < 3) && decide ((60 : ℤ) < e)
  | _, _, _ => false

/-- The two stage overrides of `Code/CKD_core.py` lines 777-789: both
`CKD_Stage` and `CKD_Stage_3m` are replaced by "Normal Function" under
`normal_rule` on the *current* pair; no later step of `CKD_core.py`
touches these columns (there is no Acute Kidney Injury override there). -/
def core_final_stages (acr : Option ℚ) (egfr : Option ℤ) (date : Option ℤ)
    (stage stage3m : Option String) : Option String × Option String :=
  (if normal_rule acr egfr date then some "Normal Function" else stage,
   if normal_rule acr egfr date then some "Normal Function" else stage3m)

/-- `classify_CKD_stage` from `CKD_auto.py` lines 218-230: no isna guard,
so a missing eGFR falls through every (False) comparison to "Stage 5". -/
def classify_CKD_stage_auto (egfr : Option ℚ) : String :=
  if pyGe egfr 90 then "Stage 1"
  else if pyGe egfr 60 then "Stage 2"
  else if pyGe egfr 45 then "Stage 3a"
  else if pyGe egfr 30 then "Stage 3b"
  else if pyGe egfr 15 then "Stage 4"
  else "Stage 5"

/-- A `Date` cell in `CKD_auto.py` at override time: after
`pd.to_datetime(..., errors="coerce")` it is a Timestamp or NaT. -/
inductive AutoDate
  | ts (d : ℤ)
  | nat

/-- `row['Date'] != "missing"` (`CKD_auto.py` line 288): a Timestamp or
NaT is never the string "missing", so the comparison is always true. -/
def autoDateNeMissingStr : AutoDate → Bool := fun _ => true

/-- `row['Date'] == "missing"` (`CKD_auto.py` line 292): always false for
a Timestamp/NaT cell. -/
def autoDateEqMissingStr : AutoDate → Bool := fun _ => false

/-- The stage override pipeline of `CKD_auto.py` lines 232-311: base
stages from eGFR banding, the "Normal Function" override (ACR ≤ 3,
eGFR > 60, date check), the "Normal/Stage1" relabel, and last the
"Acute Kidney Injury" override that fires when `CKD_Stage_3m` equals
"Normal Function" — which `CKD_auto.py` never assigns to that column. -/
def auto_final_stage (acr : ℚ) (egfr egfr3m : Option ℚ) (date : AutoDate) : String :=
  let stage := classify_CKD_stage_auto egfr
  let stage3m := classify_CKD_stage_auto egfr3m
  let s1 := if acr ≤ 3 ∧ pyGt egfr 60 = true ∧ autoDateNeMissingStr date = true
    then "Normal Function" else stage
  let s2 := if s1 = "Stage 1" ∧ autoDateEqMissingStr date = true
    then "Normal/Stage1" else s1
  if stage3m = "Normal Function" then "Acute Kidney Injury" else s2

/-- Modelled from the claim's words, for comparison with the code: the
base eGFR-band stage, replaced by "Normal Function" when ACR < 3 and
eGFR > 60 and a visit date exists, then replaced by "Acute Kidney Injury"
when the same rule applied to the *prior* eGFR/ACR pair holds. -/
def claim_final_stage (acr acrPrior : ℚ) (egfr egfrPrior : Option ℚ)
    (dateExists : Bool) : String :=
  let base := (classify_CKD_stage egfr).getD "No Data"
  let s1 := if acr < 3 ∧ pyGt egfr 60 = true ∧ dateExists = true
    then "Normal Function" else base
  if acrPrior < 3 ∧ pyGt egfrPrior 60 = true ∧ dateExists = true
    then "Acute Kidney Injury" else s1

/-! ## Triage (`CKD_auto.py` lines 618-648,
`Code/CKD_pdf_files_new3.py` lines 139-187) -/

/-- `classify_CKD_ACR_grade` from `CKD_auto.py` lines 277-283. -/
def classify_CKD_ACR_grade (acr : ℚ) : String :=
  if acr ≤ 3 then "A1" else if acr < 30 then "A2" else "A3"

/-- `review_message` from `CKD_auto.py` lines 618-648. `dateValid` is the
truthiness of the parsed `Sample_Date`, `daysSince` the computed day gap,
`ckdACR` the raw `CKD_ACR` cell (a grade string in this pipeline), which
the function coerces with `pd.to_numeric(..., errors="coerce")` before
comparing, and `risk5` the already-numeric `risk_5yr`. -/
def review_message (dateValid : Bool) (daysSince : ℤ) (stage : String)
    (ckdACR : String) (risk5 : Option ℚ) : String :=
  if dateValid then
    if stage = "Stage 1" ∨ stage = "Stage 2" then
      if 365 < daysSince ∨ pyGt (pdToNumeric ckdACR) 3 = true then
        "Review Required (CKD Stage 1-2 with >1 year since last eGFR or ACR >3)"
      else "No immediate review required"
    else if stage = "Stage 3" ∨ stage = "Stage 3a" ∨ stage = "Stage 3b"
        ∨ stage = "Stage 4" ∨ stage = "Stage 5" then
      if pyGt (pdToNumeric ckdACR) 30 = true ∨ pyGt risk5 5 = true
          ∨ 180 < daysSince then
        "Review Required (CKD Stage 3-5 with >6 months since last eGFR, ACR >30, or high-risk)"
      else if 90 < daysSince then
        "Review Required (CKD Stage 3-5 with >3 months since last eGFR)"
      else "No immediate review required"
    else "No CKD stage specified"
  else "Review Required (eGFR date unavailable)"

/-- `compute_review_message` from `Code/CKD_pdf_files_new3.py`
lines 139-187 (identical in `CKD_pdf_files_new.py` lines 225-277): the
inputs are the field values after the `float(...)`-with-fallback
conversions, so `none` covers NaN, "Missing" and unconvertible cells. -/
def compute_review_message (stage : String) (egfr acr risk5 : Option ℚ)
    (sampleDatePresent : Bool) : String :=
  if stage = "Stage 1" ∨ stage = "Stage 2" then
    if pyGt acr 3 = true then "Review Required - CKD Stage 1-2 with ACR > 3"
    else if egfr = none ∨ sampleDatePresent = false then
      "Review Required - eGFR date unavailable"
    else "General Review - CKD Stage 1-2"
  else if stage = "Stage 3A" ∨ stage = "Stage 3B" ∨ stage = "Stage 4"
      ∨ stage = "Stage 5" then
    if pyLt egfr 30 = true then "Review Required - CKD Stage 3-5 with eGFR < 30"
    else if pyGe acr 30 = true then "Review Required - CKD Stage 3-5 with ACR >= 30"
    else if pyGt risk5 5 = true then
      "Review Required - CKD Stage 3-5 with 5-year risk > 5%"
    else if egfr = none ∨ sampleDatePresent = false then
      "Review Required - eGFR date unavailable"
    else "General Review - CKD Stage 3-5"
  else if stage = "Normal Function" then "No Immediate Review Required"
  else "General Review - Unknown CKD Stage"

/-! ## Blood pressure (`Code/CKD_core.py` lines 214-226 and 815-827) -/

/-- `classify_BP` from `Code/CKD_core.py` lines 214-226. -/
def classify_BP (systolic diastolic : Option ℚ) : Option String :=
  match systolic, diastolic with
  | some s, some d =>
    if s ≥ 180 ∨ d ≥ 120 then some "Severe Hypertension"
    else if s ≥ 160 ∨ d ≥ 100 then some "Stage 2 Hypertension"
    else if s ≥ 140 ∨ d ≥ 90 then some "Stage 1 Hypertension"
    else if s < 140 ∧ d < 90 then some "Normal"
    else none
  | _, _ => none

/-- `BP_Target` from `Code/CKD_core.py` lines 815-819. -/
def bp_target (acr hba1c : Option ℚ) : String :=
  if pyGe acr 70 then "<130/80"
  else if pyGt hba1c 53 then "<130/80"
  else "<140/90"

/-- `BP_Flag` from `Code/CKD_core.py` lines 821-827; pandas comparisons
against a missing value are false. -/
def bp_flag (systolic diastolic : Option ℚ) (target : String) : String :=
  if ((pyGe systolic 140 || pyGe diastolic 90) && (target == "<140/90"))
      || ((pyGe systolic 130 || pyGe diastolic 80) && (target == "<130/80")) then
    "Above Target"
  else "On Target"

/-- The per-row BP flag derivation as composed in the pipeline. -/
def bp_flag_row (systolic diastolic acr hba1c : Option ℚ) : String :=
  bp_flag systolic diastolic (bp_target acr hba1c)

end CKDReview

namespace CKDReview

/-- C5: the CKD stage classifier is a total, non-overlapping partition of
every defined eGFR ≥ 0: `[90,∞)` is Stage 1, `[60,90)` Stage 2, `[45,60)`
Stage 3A, `[30,45)` Stage 3B, `[15,30)` Stage 4, `(0,15)` Stage 5, and the
remaining defined value `0` gets "No Data"; each band is characterised
exactly, so every defined non-negative eGFR receives exactly one label. -/
theorem classify_CKD_stage_partition (e : ℚ) (he : 0 ≤ e) :
    (classify_CKD_stage (some e) = some "Stage 1" ↔ 90 ≤ e)
    ∧ (classify_CKD_stage (some e) = some "Stage 2" ↔ 60 ≤ e ∧ e < 90)
    ∧ (classify_CKD_stage (some e) = some "Stage 3A" ↔ 45 ≤ e ∧ e < 60)
    ∧ (classify_CKD_stage (some e) = some "Stage 3B" ↔ 30 ≤ e ∧ e < 45)
    ∧ (classify_CKD_stage (some e) = some "Stage 4" ↔ 15 ≤ e ∧ e < 30)
    ∧ (classify_CKD_stage (some e) = some "Stage 5" ↔ 0 < e ∧ e < 15)
    ∧ (classify_CKD_stage (some e) = some "No Data" ↔ e = 0) := by
  simp only [classify_CKD_stage]
  split_ifs with h1 h2 h3 h4 h5 h6 <;>
    refine ⟨?_, ?_, ?_, ?_, ?_, ?_, ?_⟩ <;>
    constructor <;> intro h <;>
    simp_all <;> linarith

/-- Witness for C5 at the boundary inputs named by the claim:
eGFR = 90 is Stage 1 and eGFR = 89.999 is Stage 2. -/
theorem classify_CKD_stage_partition_boundary :
    classify_CKD_stage (some 90) = some "Stage 1"
    ∧ classify_CKD_stage (some (89999/1000)) = some "Stage 2" := by
  constructor
  · exact ((classify_CKD_stage_partition 90 (by norm_num)).1).mpr (by norm_num)
  · exact ((classify_CKD_stage_partition (89999/1000) (by norm_num)).2.1).mpr
      (by norm_num)

/-- C4 counterexample: a record whose Age, Gender and Creatinine are all
present, with Creatinine = 0, does not get a finite non-negative eGFR —
Python raises (`0.0` to a negative power), refuting the claimed
"finite and non-negative iff Age, Gender and Creatinine present ...
never an exception". -/
theorem calculate_eGFR_present_creatinine_zero :
    calculate_eGFR (some 70) (some "Male") (some 0) none = PyValue.err := by
  norm_num [calculate_eGFR]

/-- C4 amended: for positive Creatinine (and non-negative Height), the
computed eGFR is a finite non-negative real iff Age, Gender and
Creatinine are present and Height is present whenever Age < 18; and
whenever any of Age, Gender, Creatinine is absent the result is the NaN
sentinel — never zero, never an exception. -/
theorem calculate_eGFR_defined_nonneg (Age Creatinine Height : Option ℚ)
    (Gender : Option String)
    (hc : ∀ c, Creatinine = some c → 0 < c)
    (hh : ∀ h, Height = some h → 0 ≤ h) :
    ((∃ x : ℝ, calculate_eGFR Age Gender Creatinine Height = PyValue.val x ∧ 0 ≤ x)
      ↔ (Age.isSome ∧ Gender.isSome ∧ Creatinine.isSome
          ∧ ∀ a, Age = some a → a < 18 → Height.isSome))
    ∧ ((Age.isNone ∨ Gender.isNone ∨ Creatinine.isNone)
        → calculate_eGFR Age Gender Creatinine Height = PyValue.nan) := by
  constructor
  · constructor
    · rintro ⟨x, hx, hx0⟩
      rcases Age with _ | a
      · simp [calculate_eGFR] at hx
      rcases Gender with _ | g
      · simp [calculate_eGFR] at hx
      rcases Creatinine with _ | c
      · simp [calculate_eGFR] at hx
      refine ⟨by simp, by simp, by simp, ?_⟩
      intro a' ha' h18
      cases ha'
      rcases Height with _ | h
      · rw [calculate_eGFR] at hx
        simp only [if_pos h18] at hx
        simp at hx
      · simp
    · rintro ⟨hA, hG, hC, hH⟩
      rcases Age with _ | a
      · simp at hA
      rcases Gender with _ | g
      · simp at hG
      rcases Creatinine with _ | c
      · simp at hC
      have hc0 : 0 < c := hc c rfl
      have hmg : (0 : ℚ) < c / (8842/100) := by positivity
      by_cases h18 : a < 18
      · have hsome : Height.isSome := hH a rfl h18
        rcases Height with _ | h
        · simp at hsome
        have hh0 : 0 ≤ h := hh h rfl
        have hmgR : (0 : ℝ) < ((c / (8842/100) : ℚ) : ℝ) := by exact_mod_cast hmg
        refine ⟨(413/1000 : ℝ) * (h : ℝ) / ((c / (8842/100) : ℚ) : ℝ), ?_, ?_⟩
        · rw [calculate_eGFR]
          simp only [if_pos h18, if_neg hmg.ne']
        · have hhR : (0 : ℝ) ≤ (h : ℝ) := by exact_mod_cast hh0
          positivity
      · have hK : (0 : ℚ) < (if g = "Female" then (7 : ℚ)/10 else 9/10) := by
          split_ifs <;> norm_num
        have hs : (0 : ℚ) < c / (8842/100) / (if g = "Female" then (7 : ℚ)/10 else 9/10) := by
          positivity
        have hsR : (0 : ℝ) <
            ((c / (8842/100) / (if g = "Female" then (7 : ℚ)/10 else 9/10) : ℚ) : ℝ) := by
          exact_mod_cast hs
        refine ⟨142
            * Real.rpow (min ((c / (8842/100) / (if g = "Female" then (7 : ℚ)/10 else 9/10) : ℚ) : ℝ) 1)
                (if g = "Female" then -241/1000 else -302/1000)
            * Real.rpow (max ((c / (8842/100) / (if g = "Female" then (7 : ℚ)/10 else 9/10) : ℚ) : ℝ) 1) (-(6/5))
            * Real.rpow (9938/10000) (a : ℝ)
            * (if g = "Female" then 1012/1000 else 1), ?_, ?_⟩
        · simp [calculate_eGFR, h18, hs.ne', not_lt.mpr hs.le]
        · have h1 : (0 : ℝ) < min ((c / (8842/100) / (if g = "Female" then (7 : ℚ)/10 else 9/10) : ℚ) : ℝ) 1 :=
            lt_min hsR one_pos
          have h2 : (0 : ℝ) < max ((c / (8842/100) / (if g = "Female" then (7 : ℚ)/10 else 9/10) : ℚ) : ℝ) 1 :=
            lt_of_lt_of_le one_pos (le_max_right _ _)
          have p1 := Real.rpow_pos_of_pos h1 (if g = "Female" then (-241/1000 : ℝ) else -302/1000)
          have p2 := Real.rpow_pos_of_pos h2 (-(6/5) : ℝ)
          have p3 := Real.rpow_pos_of_pos (by norm_num : (0:ℝ) < 9938/10000) (a : ℝ)
          have p4 : (0 : ℝ) < (if g = "Female" then (1012/1000 : ℝ) else 1) := by
            split_ifs <;> norm_num
          have : (0 : ℝ) < 142
              * Real.rpow (min ((c / (8842/100) / (if g = "Female" then (7 : ℚ)/10 else 9/10) : ℚ) : ℝ) 1)
                  (if g = "Female" then -241/1000 else -302/1000)
              * Real.rpow (max ((c / (8842/100) / (if g = "Female" then (7 : ℚ)/10 else 9/10) : ℚ) : ℝ) 1) (-(6/5))
              * Real.rpow (9938/10000) (a : ℝ)
              * (if g = "Female" then 1012/1000 else 1) := by
            have h142 : (0:ℝ) < 142 := by norm_num
            exact mul_pos (mul_pos (mul_pos (mul_pos h142 p1) p2) p3) p4
          exact this.le
  · intro hmiss
    rcases Age with _ | a
    · simp [calculate_eGFR]
    rcases Gender with _ | g
    · simp [calculate_eGFR]
    rcases Creatinine with _ | c
    · simp [calculate_eGFR]
    simp at hmiss

lemma closerStep_eq_merge (t : ℤ) (acc : Option (ℚ × ℤ)) (p : ℤ × ℚ) :
    closerStep t acc p = mergeMin t acc (some (p.2, p.1)) := by
  cases acc <;> simp [closerStep, mergeMin]

lemma firstMin_cons (t : ℤ) (p : ℤ × ℚ) (rest : List (ℤ × ℚ)) :
    firstMin t (p :: rest) = mergeMin t (some (p.2, p.1)) (firstMin t rest) := by
  cases h : firstMin t rest <;> simp [firstMin, mergeMin, h]

lemma mergeMin_assoc (t : ℤ) (a b c : Option (ℚ × ℤ)) :
    mergeMin t (mergeMin t a b) c = mergeMin t a (mergeMin t b c) := by
  rcases a with _ | a
  · simp [mergeMin]
  rcases b with _ | b
  · simp [mergeMin]
  rcases c with _ | c
  · have hX : ∀ X : Option (ℚ × ℤ), mergeMin t X none = X := fun X => by
      cases X <;> rfl
    rw [hX, hX]
  by_cases h1 : |b.2 - t| < |a.2 - t| <;>
    by_cases h2 : |c.2 - t| < |b.2 - t| <;>
    by_cases h3 : |c.2 - t| < |a.2 - t| <;>
    simp [mergeMin, h1, h2, h3] <;>
    first
      | exact absurd (lt_trans h2 h1) h3
      | (exfalso; push_neg at h1 h2; linarith)

lemma foldl_closerStep (t : ℤ) :
    ∀ (pairs : List (ℤ × ℚ)) (acc : Option (ℚ × ℤ)),
      pairs.foldl (closerStep t) acc = mergeMin t acc (firstMin t pairs)
  | [], acc => by cases acc <;> simp [firstMin, mergeMin]
  | p :: rest, acc => by
    rw [List.foldl_cons, closerStep_eq_merge, foldl_closerStep t rest,
      firstMin_cons, mergeMin_assoc]

lemma pickClosest_eq_firstMin (t : ℤ) (pairs : List (ℤ × ℚ)) :
    pickClosest t pairs = firstMin t pairs := by
  rw [pickClosest, foldl_closerStep]
  cases firstMin t pairs <;> simp [mergeMin]

lemma firstMin_ne_none (t : ℤ) (p : ℤ × ℚ) (rest : List (ℤ × ℚ)) :
    firstMin t (p :: rest) ≠ none := by
  rw [firstMin_cons]
  cases h : firstMin t rest
  · simp [mergeMin]
  · simp only [mergeMin]
    split <;> simp

lemma firstMin_mem (t : ℤ) (pairs : List (ℤ × ℚ)) :
    ∀ (vd : ℚ × ℤ), firstMin t pairs = some vd → (vd.2, vd.1) ∈ pairs := by
  induction pairs with
  | nil => intro vd h; simp [firstMin] at h
  | cons p rest ih =>
    intro vd h
    rw [firstMin_cons] at h
    cases h2 : firstMin t rest with
    | none =>
      rw [h2] at h
      simp only [mergeMin, Option.some.injEq] at h
      subst h
      simp
    | some vd2 =>
      rw [h2] at h
      simp only [mergeMin] at h
      split_ifs at h
      · simp only [Option.some.injEq] at h
        subst h
        exact List.mem_cons_of_mem p (ih vd2 h2)
      · simp only [Option.some.injEq] at h
        subst h
        simp

lemma firstMin_min (t : ℤ) (pairs : List (ℤ × ℚ)) :
    ∀ (vd : ℚ × ℤ), firstMin t pairs = some vd →
      ∀ q ∈ pairs, |vd.2 - t| ≤ |q.1 - t| := by
  induction pairs with
  | nil => intro vd h; simp [firstMin] at h
  | cons p rest ih =>
    intro vd h q hq
    rw [firstMin_cons] at h
    cases h2 : firstMin t rest with
    | none =>
      have hrest : rest = [] := by
        cases rest with
        | nil => rfl
        | cons a l => exact absurd h2 (firstMin_ne_none t a l)
      subst hrest
      rw [h2] at h
      simp only [mergeMin, Option.some.injEq] at h
      subst h
      simp only [List.mem_singleton] at hq
      subst hq
      simp
    | some vd2 =>
      rw [h2] at h
      simp only [mergeMin] at h
      have ihq := ih vd2 h2
      split_ifs at h with hlt
      · simp only [Option.some.injEq] at h
        subst h
        rcases List.mem_cons.mp hq with hq | hq
        · subst hq
          simpa using le_of_lt hlt
        · exact ihq q hq
      · simp only [Option.some.injEq] at h
        subst h
        push_neg at hlt
        rcases List.mem_cons.mp hq with hq | hq
        · subst hq
          simp
        · have := ihq q hq
          simp only at hlt ⊢
          linarith

lemma firstMin_first (t : ℤ) (pairs : List (ℤ × ℚ)) :
    ∀ (vd : ℚ × ℤ), firstMin t pairs = some vd →
      ∃ l r, pairs = l ++ (vd.2, vd.1) :: r ∧ ∀ q ∈ l, |vd.2 - t| < |q.1 - t| := by
  induction pairs with
  | nil => intro vd h; simp [firstMin] at h
  | cons p rest ih =>
    intro vd h
    rw [firstMin_cons] at h
    cases h2 : firstMin t rest with
    | none =>
      rw [h2] at h
      simp only [mergeMin, Option.some.injEq] at h
      subst h
      exact ⟨[], rest, by simp, by simp⟩
    | some vd2 =>
      rw [h2] at h
      simp only [mergeMin] at h
      split_ifs at h with hlt
      · simp only [Option.some.injEq] at h
        subst h
        obtain ⟨l, r, hlr, hstrict⟩ := ih vd2 h2
        refine ⟨p :: l, r, by simp [hlr], ?_⟩
        intro q hq
        rcases List.mem_cons.mp hq with hq | hq
        · subst hq
          simpa using hlt
        · exact hstrict q hq
      · simp only [Option.some.injEq] at h
        subst h
        exact ⟨[], rest, by simp, by simp⟩

/-- C6: the 3-months-prior selection returns the explicit no-prior-value
result (`none`, not an error and not zero) when the current date is
missing or no valid candidate exists; otherwise it returns a valid
candidate minimising the absolute difference to `current date - 90` days,
with ties resolved in first-encountered order (everything before the
chosen candidate is strictly farther from the target). -/
theorem select_closest_3m_prior_spec :
    (∀ (hc : ℕ) (df : List LabRow),
      select_closest_3m_prior_creatinine none hc df = none)
    ∧ (∀ (d : ℤ) (hc : ℕ) (df : List LabRow), validPairs hc df = [] →
      select_closest_3m_prior_creatinine (some d) hc df = none)
    ∧ (∀ (d : ℤ) (hc : ℕ) (df : List LabRow), validPairs hc df ≠ [] →
      (select_closest_3m_prior_creatinine (some d) hc df).isSome)
    ∧ (∀ (d : ℤ) (hc : ℕ) (df : List LabRow) (v : ℚ) (dd : ℤ),
      select_closest_3m_prior_creatinine (some d) hc df = some (v, dd) →
        (dd, v) ∈ validPairs hc df
        ∧ (∀ q ∈ validPairs hc df, |dd - (d - 90)| ≤ |q.1 - (d - 90)|)
        ∧ ∃ l r, validPairs hc df = l ++ (dd, v) :: r
            ∧ ∀ q ∈ l, |dd - (d - 90)| < |q.1 - (d - 90)|) := by
  refine ⟨fun hc df => rfl, ?_, ?_, ?_⟩
  · intro d hc df hemp
    rw [select_closest_3m_prior_creatinine, pickClosest_eq_firstMin, hemp]
    rfl
  · intro d hc df hne
    rw [select_closest_3m_prior_creatinine, pickClosest_eq_firstMin]
    cases hvp : validPairs hc df with
    | nil => exact absurd hvp hne
    | cons p rest =>
      cases h : firstMin (d - 90) (p :: rest) with
      | none => exact absurd h (firstMin_ne_none _ p rest)
      | some vd => rfl
  · intro d hc df v dd h
    rw [select_closest_3m_prior_creatinine, pickClosest_eq_firstMin] at h
    exact ⟨firstMin_mem _ _ _ h, firstMin_min _ _ _ h, firstMin_first _ _ _ h⟩

/-- Witness for C6: on a two-candidate history the matcher picks the
candidate at the target date itself, and an empty candidate set yields the
explicit no-prior-value result. -/
theorem select_closest_3m_prior_spec_witness :
    ((10 : ℤ), (5 : ℚ)) ∈
        validPairs 1 [⟨1, some 10, some 5⟩, ⟨1, some 3, some 6⟩]
    ∧ select_closest_3m_prior_creatinine (some 100) 2
        [⟨1, some 10, some 5⟩, ⟨1, some 3, some 6⟩] = none := by
  constructor
  · exact (select_closest_3m_prior_spec.2.2.2 100 1
      [⟨1, some 10, some 5⟩, ⟨1, some 3, some 6⟩] 5 10 (by decide)).1
  · exact select_closest_3m_prior_spec.2.1 100 2
      [⟨1, some 10, some 5⟩, ⟨1, some 3, some 6⟩] (by decide)

/-- C7 counterexample: a primary `Value` of `"abc"` is missing in none of
the claim's listed senses, yet the backfill overwrites it with the
secondary `Value.2` (7), because the prior numeric coercion turns any
non-numeric string into NaN. -/
theorem update_overwrites_nonlisted_value :
    listedMissing (RawCell.text "abc") = false
    ∧ update_df_with_newest_value2 (α := Unit)
        [⟨1, some 5, RawCell.text "abc", some 10, some 7, ()⟩]
      = [⟨1, DateOut.ts 5, some 7, some 10, some 7, ()⟩] := by
  constructor
  · rfl
  · rfl

/-- C7 amended: in the backfill step, for every row the primary `Value` is
replaced by the newest group row's `Value.2` exactly when the numerically
coerced primary value is missing — which covers the listed senses (null,
blank/whitespace, "na", "n/a", "null", "none", case-insensitive) but also
any other non-numeric string; a numerically present primary value is never
overwritten, the primary `Date` is replaced (reformatted) only when the
primary date is missing, and every other field of the row is unchanged. -/
theorem update_row_spec {α : Type} (nr? : Option (VRow α)) (row : VRow α) :
    (update_row nr? row).hc = row.hc
    ∧ (update_row nr? row).date2 = row.date2
    ∧ (update_row nr? row).value2 = row.value2
    ∧ (update_row nr? row).rest = row.rest
    ∧ ((coerceValue row.value).isSome →
        (update_row nr? row).value = coerceValue row.value)
    ∧ (∀ d, row.date = some d → (update_row nr? row).date = DateOut.ts d)
    ∧ ((coerceValue row.value).isNone →
        (update_row nr? row).value = nr?.bind (fun nr => nr.value2))
    ∧ (∀ s ∈ (["", " ", "  ", "na", "NA", "Na", "nA", "n/a", "N/A",
          "null", "NULL", "Null", "none", "None", "NONE"] : List String),
        coerceValue (RawCell.text s) = none) := by
  refine ⟨?_, ?_, ?_, ?_, ?_, ?_, ?_, ?_⟩
  · cases nr? <;> rfl
  · cases nr? <;> rfl
  · cases nr? <;> rfl
  · cases nr? <;> rfl
  · intro hs
    cases nr? with
    | none => rfl
    | some nr =>
      cases h : coerceValue row.value with
      | none => rw [h] at hs; simp at hs
      | some q => simp [update_row, h]
  · intro d hd
    cases nr? <;> simp [update_row, hd]
  · intro hn
    cases nr? with
    | none =>
      simp only [Option.isNone] at hn
      cases hcv : coerceValue row.value with
      | none => simp [update_row, hcv]
      | some q => rw [hcv] at hn; simp at hn
    | some nr => simp [update_row, Option.isNone_iff_eq_none.mp hn]
  · decide

/-- Witness for C7 amended: a numerically present primary value (3) is
kept and a present primary date (6) is kept, even when a newest secondary
row exists. -/
theorem update_row_spec_witness :
    (update_row (α := Unit) (some ⟨1, some 8, RawCell.num 1, some 8, some 9, ()⟩)
        ⟨1, some 6, RawCell.num 3, some 4, some 5, ()⟩).value
      = coerceValue (RawCell.num 3)
    ∧ (update_row (α := Unit) (some ⟨1, some 8, RawCell.num 1, some 8, some 9, ()⟩)
        ⟨1, some 6, RawCell.num 3, some 4, some 5, ()⟩).date = DateOut.ts 6 := by
  have h := update_row_spec (α := Unit)
    (some ⟨1, some 8, RawCell.num 1, some 8, some 9, ()⟩)
    ⟨1, some 6, RawCell.num 3, some 4, some 5, ()⟩
  exact ⟨h.2.2.2.2.1 (by rfl), h.2.2.2.2.2.1 6 rfl⟩

/-- C1 counterexample: a record whose ACR is absent in the input (Age,
Gender, eGFR present) is scored — with the 0 → 0.019 substitution — and
does not appear in the missing-data CSV, refuting the claim that a
missing-ACR record must be excluded. -/
theorem kfre_missing_acr_scored :
    kfre_outcome ⟨some 70, some "Male", some 20, none⟩
      = KFREOutcome.scored (19/1000) 1
    ∧ (kfre_split [⟨some 70, some "Male", some 20, none⟩]).2 = [] := by
  constructor
  · rfl
  · rfl

/-- C1 amended: the scoring step excludes exactly the records missing one
of Age, Gender, eGFR — a missing ACR never triggers exclusion because ACR
is zero-filled first; excluded records get exactly the sentinel strings
"Error: Missing required values" (risks) and "Error: Insufficient data"
(stage); and the missing-data CSV rows are all retained in the final
combined table. -/
theorem kfre_excluded_iff_missing_required (r : KRec) :
    ((∃ m1 m2, kfre_outcome r = KFREOutcome.excludedMissing m1 m2)
      ↔ (r.age.isNone ∨ r.gender.isNone ∨ r.egfr.isNone))
    ∧ (∀ m1 m2, kfre_outcome r = KFREOutcome.excludedMissing m1 m2 →
        m1 = "Error: Missing required values" ∧ m2 = "Error: Insufficient data")
    ∧ (∀ input : List KRec, ∀ s ∈ (kfre_split input).2, s ∈ (kfre_split input).1)
    ∧ (∀ input : List KRec,
        (kfre_split input).2 = (input.map fillACR).filter (fun x => requiredMissing x)) := by
  obtain ⟨age, gender, egfr, acr⟩ := r
  refine ⟨?_, ?_, fun input s hs => List.mem_append_right _ hs, fun input => rfl⟩
  · rcases age with _ | a
    · simp [kfre_outcome, fillACR, requiredMissing]
    rcases gender with _ | g
    · simp [kfre_outcome, fillACR, requiredMissing]
    rcases egfr with _ | e
    · simp [kfre_outcome, fillACR, requiredMissing]
    rcases hsex : sexOf g with _ | s <;>
      simp [kfre_outcome, fillACR, requiredMissing, hsex]
  · intro m1 m2 h
    rcases age with _ | a
    · simp [kfre_outcome, fillACR, requiredMissing] at h
      exact ⟨h.1.symm, h.2.symm⟩
    rcases gender with _ | g
    · simp [kfre_outcome, fillACR, requiredMissing] at h
      exact ⟨h.1.symm, h.2.symm⟩
    rcases egfr with _ | e
    · simp [kfre_outcome, fillACR, requiredMissing] at h
      exact ⟨h.1.symm, h.2.symm⟩
    rcases hsex : sexOf g with _ | s <;>
      simp [kfre_outcome, fillACR, requiredMissing, hsex] at h

/-- Witness for C1 amended: a record with missing Age is excluded with the
two sentinel strings, and is retained in the final combined table. -/
theorem kfre_excluded_iff_missing_required_witness :
    (∃ m1 m2, kfre_outcome ⟨none, some "Male", some 20, some 1⟩
      = KFREOutcome.excludedMissing m1 m2)
    ∧ fillACR ⟨none, some "Male", some 20, some 1⟩
        ∈ (kfre_split [⟨none, some "Male", some 20, some 1⟩]).1 := by
  constructor
  · exact (kfre_excluded_iff_missing_required
      ⟨none, some "Male", some 20, some 1⟩).1.mpr (Or.inl rfl)
  · exact (kfre_excluded_iff_missing_required
      ⟨none, some "Male", some 20, some 1⟩).2.2.1
      [⟨none, some "Male", some 20, some 1⟩] _ (by decide)

/-- C9: a record whose Gender is present but neither "Male" nor "Female"
(all other required fields present) is mapped to a missing sex, dropped by
`dropna(subset=['sex'])`, and — since its Gender is non-null — is not in
the missing-data CSV either: it appears in neither output of the split. -/
theorem invalid_gender_dropped (input : List KRec) (r : KRec) (g : String)
    (hg : r.gender = some g) (hm : g ≠ "Male") (hf : g ≠ "Female")
    (ha : r.age.isSome) (he : r.egfr.isSome) :
    kfre_outcome r = KFREOutcome.droppedInvalidGender
    ∧ fillACR r ∉ (kfre_split input).1
    ∧ fillACR r ∉ (kfre_split input).2 := by
  obtain ⟨a, ha2⟩ := Option.isSome_iff_exists.mp ha
  obtain ⟨e, he2⟩ := Option.isSome_iff_exists.mp he
  have hreq : requiredMissing (fillACR r) = false := by
    simp [requiredMissing, fillACR, ha2, he2, hg]
  have hsex : ((fillACR r).gender.bind sexOf).isSome = false := by
    simp [fillACR, hg, sexOf, hm, hf]
  refine ⟨?_, ?_, ?_⟩
  · rw [kfre_outcome, if_neg (by simp [hreq])]
    have : (fillACR r).gender = some g := by simp [fillACR, hg]
    rw [this]
    simp [sexOf, hm, hf]
  · intro hmem
    rcases List.mem_append.mp hmem with hmem | hmem
    · have := (List.mem_filter.mp hmem).2
      rw [hsex] at this
      exact absurd this (by simp)
    · have := (List.mem_filter.mp hmem).2
      rw [hreq] at this
      exact absurd this (by simp)
  · intro hmem
    have := (List.mem_filter.mp hmem).2
    rw [hreq] at this
    exact absurd this (by simp)

/-- Witness for C9: a record with Gender "Other" and all other required
fields present is dropped and appears in neither output list. -/
theorem invalid_gender_dropped_witness :
    kfre_outcome ⟨some 50, some "Other", some 70, some 1⟩
      = KFREOutcome.droppedInvalidGender
    ∧ fillACR ⟨some 50, some "Other", some 70, some 1⟩
        ∉ (kfre_split [⟨some 50, some "Other", some 70, some 1⟩]).1
    ∧ fillACR ⟨some 50, some "Other", some 70, some 1⟩
        ∉ (kfre_split [⟨some 50, some "Other", some 70, some 1⟩]).2 :=
  invalid_gender_dropped [⟨some 50, some "Other", some 70, some 1⟩]
    ⟨some 50, some "Other", some 70, some 1⟩ "Other" rfl
    (by decide) (by decide) rfl rfl

lemma classify_auto_range (e : Option ℚ) :
    classify_CKD_stage_auto e ∈
      (["Stage 1", "Stage 2", "Stage 3a", "Stage 3b", "Stage 4",
        "Stage 5"] : List String) := by
  rw [classify_CKD_stage_auto]
  split_ifs <;> simp

/-- C2 counterexample: a record with current ACR 1, current eGFR 50,
prior eGFR 95 and a valid visit date. The claim makes the prior pair
satisfy rule 2 and demands "Acute Kidney Injury"; the code instead yields
Stage 3A/3a, because the `CKD_Stage_3m` override tests the current pair
(`CKD_core.py`) and the AKI override never fires (`CKD_auto.py`). -/
theorem stage_overrides_counterexample :
    claim_final_stage 1 1 (some 50) (some 95) true = "Acute Kidney Injury"
    ∧ auto_final_stage 1 (some 50) (some 95) (AutoDate.ts 17) = "Stage 3a"
    ∧ core_final_stages (some 1) (some 50) (some 17)
        (classify_CKD_stage (some 50)) (classify_CKD_stage (some 95))
      = (some "Stage 3A", some "Stage 1") := by
  refine ⟨?_, ?_, ?_⟩ <;> rfl

/-- C2 amended: the "Normal Function" override of both `CKD_Stage` and
`CKD_Stage_3m` in `CKD_core.py` tests the current ACR/eGFR pair (never
the prior one), `CKD_core.py` applies no "Acute Kidney Injury" override,
and in `CKD_auto.py` the AKI override is unreachable: `CKD_Stage_3m`
comes straight from the eGFR banding, which never produces
"Normal Function", so the finalized stage is never "Acute Kidney
Injury". -/
theorem stage_overrides_spec :
    (∀ (acr : ℚ) (egfr egfr3m : Option ℚ) (d : AutoDate),
      classify_CKD_stage_auto egfr3m ≠ "Normal Function"
      ∧ auto_final_stage acr egfr egfr3m d ≠ "Acute Kidney Injury")
    ∧ (∀ (acr : Option ℚ) (egfr : Option ℤ) (date : Option ℤ)
        (st st3 : Option String), normal_rule acr egfr date = true →
          core_final_stages acr egfr date st st3
            = (some "Normal Function", some "Normal Function"))
    ∧ (∀ (acr : Option ℚ) (egfr : Option ℤ) (date : Option ℤ)
        (st st3 : Option String), normal_rule acr egfr date = false →
          core_final_stages acr egfr date st st3 = (st, st3)) := by
  refine ⟨?_, ?_, ?_⟩
  · intro acr egfr egfr3m d
    have h3 := classify_auto_range egfr3m
    have h1 := classify_auto_range egfr
    simp only [List.mem_cons, List.not_mem_nil, or_false] at h3 h1
    have hne : classify_CKD_stage_auto egfr3m ≠ "Normal Function" := by
      rcases h3 with h | h | h | h | h | h <;> rw [h] <;> decide
    refine ⟨hne, ?_⟩
    simp only [auto_final_stage]
    rw [if_neg hne]
    split_ifs <;>
      first
        | decide
        | (rcases h1 with h | h | h | h | h | h <;> rw [h] <;> decide)
  · intro acr egfr date st st3 h
    simp [core_final_stages, h]
  · intro acr egfr date st st3 h
    simp [core_final_stages, h]

/-- Witness for C2 amended: the core override fires on a current pair
satisfying the rule and leaves the stages alone otherwise, and the auto
pipeline never yields "Acute Kidney Injury" at a concrete input. -/
theorem stage_overrides_spec_witness :
    core_final_stages (some 1) (some 80) (some 0) (some "Stage 2") (some "Stage 2")
      = (some "Normal Function", some "Normal Function")
    ∧ core_final_stages (some 5) (some 80) (some 0) (some "Stage 2") (some "Stage 2")
      = (some "Stage 2", some "Stage 2")
    ∧ auto_final_stage 5 (some 80) (some 95) (AutoDate.ts 0) ≠ "Acute Kidney Injury" :=
  ⟨stage_overrides_spec.2.1 (some 1) (some 80) (some 0) (some "Stage 2")
      (some "Stage 2") (by decide),
    stage_overrides_spec.2.2 (some 5) (some 80) (some 0) (some "Stage 2")
      (some "Stage 2") (by decide),
    (stage_overrides_spec.1 5 (some 80) (some 95) (AutoDate.ts 0)).2⟩

/-- C3: in `CKD_auto.py`, the ACR disjunct of the stage 3-5 triage rule is
dead: the patient's ACR 50 grades as "A3", the function numerically
coerces that grade string to NaN, the comparison NaN > 30 is false, and a
recently-seen (10 days) low-risk record is triaged "No immediate review
required" although the claim (and the message text the code itself would
emit) requires a review for ACR ≥ 30. -/
theorem review_message_acr_disjunct_dead :
    classify_CKD_ACR_grade 50 = "A3"
    ∧ pdToNumeric "A3" = none
    ∧ review_message true 10 "Stage 3a" "A3" (some 1)
      = "No immediate review required" := by
  refine ⟨?_, ?_, ?_⟩ <;> rfl

/-- C8: both triage functions are total and return exactly one string out
of their fixed finite enumerations — never null, never a computed string
outside the enumeration. -/
theorem triage_enumeration :
    (∀ (dv : Bool) (days : ℤ) (stage acrRaw : String) (risk5 : Option ℚ),
      review_message dv days stage acrRaw risk5 ∈
        (["Review Required (CKD Stage 1-2 with >1 year since last eGFR or ACR >3)",
          "No immediate review required",
          "Review Required (CKD Stage 3-5 with >6 months since last eGFR, ACR >30, or high-risk)",
          "Review Required (CKD Stage 3-5 with >3 months since last eGFR)",
          "No CKD stage specified",
          "Review Required (eGFR date unavailable)"] : List String))
    ∧ (∀ (stage : String) (egfr acr risk5 : Option ℚ) (sdp : Bool),
      compute_review_message stage egfr acr risk5 sdp ∈
        (["Review Required - CKD Stage 1-2 with ACR > 3",
          "Review Required - eGFR date unavailable",
          "General Review - CKD Stage 1-2",
          "Review Required - CKD Stage 3-5 with eGFR < 30",
          "Review Required - CKD Stage 3-5 with ACR >= 30",
          "Review Required - CKD Stage 3-5 with 5-year risk > 5%",
          "General Review - CKD Stage 3-5",
          "No Immediate Review Required",
          "General Review - Unknown CKD Stage"] : List String)) := by
  constructor
  · intro dv days stage acrRaw risk5
    rw [review_message]
    split_ifs <;> simp
  · intro stage egfr acr risk5 sdp
    rw [compute_review_message]
    split_ifs <;> simp

/-- C10 counterexample: with Systolic_BP missing but Diastolic_BP 95, the
default target "<140/90" applies and the diastolic comparison alone fires,
so BP_Flag is "Above Target" — not "On Target" as the claim states for
every record with a missing reading (BP_Classification is still None). -/
theorem bp_flag_one_missing_above_target :
    bp_flag_row none (some 95) none none = "Above Target"
    ∧ classify_BP none (some 95) = none := by
  constructor <;> rfl

/-- C10 amended: when *both* BP readings are missing every threshold
comparison is false and BP_Flag is "On Target" (not a missing sentinel),
while BP_Classification is None whenever either reading is missing; a
single present reading can still produce "Above Target". -/
theorem bp_flag_missing_spec :
    (∀ acr hba1c : Option ℚ, bp_flag_row none none acr hba1c = "On Target")
    ∧ (∀ systolic diastolic : Option ℚ, systolic = none ∨ diastolic = none →
        classify_BP systolic diastolic = none) := by
  constructor
  · intro acr hba1c
    rw [bp_flag_row, bp_flag]
    simp [pyGe]
  · rintro systolic diastolic (rfl | rfl)
    · rfl
    · cases systolic <;> rfl

/-- Witness for C10 amended: both readings missing gives "On Target" even
with a high ACR, and a missing systolic reading gives a None BP class. -/
theorem bp_flag_missing_spec_witness :
    bp_flag_row none none (some 80) (some 60) = "On Target"
    ∧ classify_BP none (some 99) = none :=
  ⟨bp_flag_missing_spec.1 (some 80) (some 60),
    bp_flag_missing_spec.2 none (some 99) (Or.inl rfl)⟩

/-- Witness for C4 amended: for an adult female with creatinine 70 µmol/L
and no height, the eGFR is a defined finite non-negative real. -/
theorem calculate_eGFR_defined_nonneg_witness :
    ∃ x : ℝ, calculate_eGFR (some 45) (some "Female") (some 70) none = PyValue.val x ∧ 0 ≤ x := by
  have h := calculate_eGFR_defined_nonneg (some 45) (some 70) none (some "Female")
    (by intro c hc; cases hc; norm_num)
    (by intro h hh; cases hh)
  refine h.1.mpr ⟨by simp, by simp, by simp, ?_⟩
  intro a ha h18
  cases ha
  norm_num at h18

end CKDReview
